import Mathlib

/-!
Shallow embedding of the `rplidar_sdk` application layer
(`src/app/sample_data/main.cpp`, `src/app/read_data_bin/main.cpp`,
`src/app/print_stats/main.cpp`).

The vendor driver (`sl::ILidarDriver`) is an external collaborator: each
program is modelled as a pure function from a driver-oracle environment
(the results the driver calls would return) to an output consisting of
the trace of driver calls and report events, the produced artifacts, and
the process exit code. Machine integers (`sl_result`, fixed-point sample
fields) are modelled as `Nat` with explicit masks; the float unit
conversions at CSV-export time are modelled in `ℚ`, which is exact for
these inputs (the products stay below `2 ^ 24` and the divisors are
powers of two).
-/

/-! ### Vendor result codes and status constants (`sl_types.h`, `sl_lidar_cmd.h`) -/

def SL_RESULT_FAIL_BIT : Nat := 0x80000000

def SL_RESULT_OK : Nat := 0

def SL_RESULT_OPERATION_TIMEOUT : Nat := 0x80000002

def SL_RESULT_OPERATION_FAIL : Nat := 0x80000004

/-- Macro `SL_IS_OK(x)`: the high (fail) bit of the 32-bit result is clear. -/
def SL_IS_OK (x : Nat) : Bool := x &&& SL_RESULT_FAIL_BIT == 0

/-- Macro `SL_IS_FAIL(x)`: the high (fail) bit of the 32-bit result is set. -/
def SL_IS_FAIL (x : Nat) : Bool := x &&& SL_RESULT_FAIL_BIT != 0

def SL_LIDAR_STATUS_OK : Nat := 0

def SL_LIDAR_STATUS_WARNING : Nat := 1

def SL_LIDAR_STATUS_ERROR : Nat := 2

def SL_LIDAR_RESP_MEASUREMENT_QUALITY_SHIFT : Nat := 2

def SL_LIDAR_RESP_HQ_FLAG_SYNCBIT : Nat := 1

theorem sl_fail_iff_not_ok (x : Nat) : SL_IS_FAIL x = !SL_IS_OK x := rfl

/-! ### Measurement samples (`sl_lidar_response_measurement_node_hq_t`) -/

/-- One HQ measurement record: packed fields `sl_u16 angle_z_q14`,
`sl_u32 dist_mm_q2`, `sl_u8 quality`, `sl_u8 flag` (8 bytes total). -/
structure Node where
  angle_z_q14 : Nat
  dist_mm_q2 : Nat
  quality : Nat
  flag : Nat
  deriving DecidableEq, Repr

/-- Angular order on measurement records, by the raw fixed-point angle. -/
def nodeLE (a b : Node) : Prop := a.angle_z_q14 ≤ b.angle_z_q14

instance : DecidableRel nodeLE := fun a b => Nat.decLe a.angle_z_q14 b.angle_z_q14

instance : IsTotal Node nodeLE := ⟨fun a b => Nat.le_total a.angle_z_q14 b.angle_z_q14⟩

instance : IsTrans Node nodeLE := ⟨fun _ _ _ h h' => Nat.le_trans h h'⟩

/-- Modelled from the spec: `ILidarDriver::ascendScanData` is vendor driver
code (not in this repository); per the spec it reorders a retrieved batch
into ascending angular order ("angular-ascending reorder step"). -/
def ascendScanData (nodes : List Node) : List Node :=
  List.insertionSort nodeLE nodes

/-! ### Scan modes (`sl::LidarScanMode`) -/

/-- A device-advertised scan mode. The float fields `us_per_sample` and
`max_distance` are only carried and printed, never computed with, so `ℚ`
is a faithful stand-in. -/
structure ScanMode where
  id : Nat
  scan_mode : String
  ans_type : Nat
  us_per_sample : ℚ
  max_distance : ℚ
  deriving DecidableEq, Repr

/-! ### Trace events: driver calls, report lines, artifact writes -/

/-- One observable step of a program: a driver call, a diagnostic report,
or an artifact operation, in program order. -/
inductive Ev where
  | getDeviceInfo
  | getHealth
  | reportUnhealthy
  | reportHealthQueryFail
  | setMotorSpeed
  | getMotorInfo
  | getAllScanModes
  | openFile (name : String)
  | writeHeader
  | startScan (useTypical nonBlocking : Bool)
  | startScanExpress (nonBlocking : Bool) (modeId : Nat)
  | reportMode (id : Nat) (name : String)
  | grabScanDataHq
  | ascend
  | reportAcqError (res : Nat)
  | stop
  deriving DecidableEq, Repr

/-- Recognizer for the acquisition-error report event. -/
def Ev.isAcqError : Ev → Bool
  | .reportAcqError _ => true
  | _ => false

/-- Project a `startScanExpress` event to its requested mode id. -/
def Ev.startExpressId? : Ev → Option Nat
  | .startScanExpress _ id => some id
  | _ => none

/-- Count of `grabScanDataHq` events in a trace. -/
def grabCount (tr : List Ev) : Nat := tr.countP (· == Ev.grabScanDataHq)

/-! ### Health check (`checkSLAMTECLIDARHealth`, identical in all three apps) -/

/-- Embedding of `checkSLAMTECLIDARHealth`: calls `getHealth`; on a failed
query reports and returns `false`; on success returns `false` iff the
reported status is `SL_LIDAR_STATUS_ERROR` (reporting the internal-error
message); a `WARNING` or `OK` status returns `true`. -/
def checkSLAMTECLIDARHealth (healthRes healthStatus : Nat) : List Ev × Bool :=
  if SL_IS_OK healthRes then
    if healthStatus == SL_LIDAR_STATUS_ERROR then
      ([Ev.getHealth, Ev.reportUnhealthy], false)
    else
      ([Ev.getHealth], true)
  else
    ([Ev.getHealth, Ev.reportHealthQueryFail], false)

/-! ### CSV export rows (`sample_data` per-mode table artifact) -/

/-- One CSV data row, after the fixed-point → physical-unit conversion
done at export time (`(angle_z_q14 * 90.f) / 16384.f`, `dist_mm_q2 / 4.0f`,
`quality >> SL_LIDAR_RESP_MEASUREMENT_QUALITY_SHIFT`, sync flag as "S"). -/
structure Row where
  theta : ℚ
  dist : ℚ
  q : Nat
  flagStr : String
  deriving DecidableEq, Repr

/-- Conversion of one raw record to a CSV row, exactly as written by
`of.print("{},{},{},{}\n", ...)` in `sample_data/main.cpp`. -/
def rowOfNode (n : Node) : Row :=
  { theta := (n.angle_z_q14 * 90 : ℚ) / 16384
  , dist := (n.dist_mm_q2 : ℚ) / 4
  , q := n.quality >>> SL_LIDAR_RESP_MEASUREMENT_QUALITY_SHIFT
  , flagStr := if n.flag &&& SL_LIDAR_RESP_HQ_FLAG_SYNCBIT != 0 then "S" else "" }

/-- A per-mode CSV artifact: name, header line, data rows. -/
structure CsvFile where
  name : String
  header : String
  rows : List Row
  deriving DecidableEq, Repr

/-- Deterministic artifact name `fmt::format("{}_{}_data.csv", id, scan_mode)`. -/
def modeFileName (m : ScanMode) : String :=
  toString m.id ++ "_" ++ m.scan_mode ++ "_data.csv"

/-! ### The `sample_data` program (multi-mode sweep) -/

/-- Driver-oracle outcome of one `grabScanDataHq` call: the `sl_result`
and, when it succeeds, the retrieved records (the in-out `count` is the
length of `nodes`; the stack buffer bounds it by 8192). -/
structure GrabOutcome where
  res : Nat
  nodes : List Node
  deriving DecidableEq, Repr

/-- Driver-oracle data for one sweep iteration: the (ignored) result of
`startScanExpress`, the negotiated mode it writes to `actualMode`, and the
outcome of the single `grabScanDataHq` call. -/
structure ModeEnv where
  startRes : Nat
  negotiated : ScanMode
  grab : GrabOutcome
  deriving DecidableEq, Repr

/-- Embedding of one iteration of the sweep loop (`sample_data/main.cpp`
lines 162–211): open the CSV, write the header, `startScanExpress` (result
unused), report the negotiated mode, grab once; on success `ascendScanData`
then write one row per record, on failure write nothing further. -/
def runMode (m : ScanMode) (me : ModeEnv) : List Ev × CsvFile :=
  let fname := modeFileName m
  let pre := [Ev.openFile fname, Ev.writeHeader,
              Ev.startScanExpress false m.id,
              Ev.reportMode me.negotiated.id me.negotiated.scan_mode,
              Ev.grabScanDataHq]
  if SL_IS_OK me.grab.res then
    (pre ++ [Ev.ascend],
     ⟨fname, "theta,dist,q,flag", (ascendScanData me.grab.nodes).map rowOfNode⟩)
  else
    (pre, ⟨fname, "theta,dist,q,flag", []⟩)

/-- Driver-oracle environment for a `sample_data` run (after channel and
driver construction, which are modelled separately). -/
structure SampleEnv where
  deviceInfoRes : Nat
  healthRes : Nat
  healthStatus : Nat
  motorRes : Nat
  scanModesRes : Nat
  modes : List (ScanMode × ModeEnv)
  deriving DecidableEq, Repr

/-- Result of a `sample_data` run: the event trace, the per-mode CSV
artifacts, and the process exit code. -/
structure SampleOut where
  trace : List Ev
  files : List CsvFile
  exitCode : Int
  deriving DecidableEq, Repr

/-- Embedding of `sample_data`'s `main` from `getDeviceInfo` on: info
query (fatal on failure), health check (unhealthy or failed query is
fatal), `setMotorSpeed` with its result discarded, scan-mode enumeration
(fatal on failure), then the sweep loop over every mode followed by one
unconditional `stop`. -/
def sampleMain (e : SampleEnv) : SampleOut :=
  if SL_IS_FAIL e.deviceInfoRes then
    ⟨[Ev.getDeviceInfo], [], -1⟩
  else
    let hc := checkSLAMTECLIDARHealth e.healthRes e.healthStatus
    if !hc.2 then
      ⟨Ev.getDeviceInfo :: hc.1, [], -1⟩
    else if SL_IS_FAIL e.scanModesRes then
      ⟨Ev.getDeviceInfo :: hc.1 ++ [Ev.setMotorSpeed, Ev.getAllScanModes], [], -1⟩
    else
      let per := e.modes.map (fun p => runMode p.1 p.2)
      ⟨Ev.getDeviceInfo :: hc.1 ++ [Ev.setMotorSpeed, Ev.getAllScanModes]
         ++ (per.map Prod.fst).flatten ++ [Ev.stop],
       per.map Prod.snd, 0⟩

/-! ### The `read_data_bin` program (continuous capture) -/

/-- One length-prefixed block of the continuous-capture binary artifact:
the sample count (written as one `size_t`, 8 bytes) followed by the
records (written raw with `of.write(nodes.data(), count * sizeof(...))`). -/
structure Block where
  count : Nat
  nodes : List Node
  deriving DecidableEq, Repr

/-- Little-endian byte serialization of `n` truncated to `w` bytes. -/
def leBytes : Nat → Nat → List Nat
  | 0, _ => []
  | w + 1, n => n % 256 :: leBytes w (n / 256)

/-- Byte image of one packed `sl_lidar_response_measurement_node_hq_t`
record: `sl_u16 angle_z_q14`, `sl_u32 dist_mm_q2`, `sl_u8 quality`,
`sl_u8 flag` — 8 bytes, device-native fixed-point values, no conversion. -/
def nodeBytes (n : Node) : List Nat :=
  leBytes 2 n.angle_z_q14 ++ leBytes 4 n.dist_mm_q2 ++ [n.quality % 256, n.flag % 256]

/-- Byte image of one artifact block: 8-byte (`sizeof(size_t)`) unsigned
count followed by the raw record bytes. -/
def blockBytes (b : Block) : List Nat :=
  leBytes 8 b.count ++ (b.nodes.map nodeBytes).flatten

/-- Byte image of the whole `data.bin` artifact. -/
def artifactBytes (blocks : List Block) : List Nat :=
  (blocks.map blockBytes).flatten

/-- Driver-oracle environment for a `read_data_bin` run. `grabs` is the
sequence of outcomes the driver would hand to successive `grabScanDataHq`
calls; the capture loop consumes it until the first failing outcome. -/
structure BinEnv where
  deviceInfoRes : Nat
  healthRes : Nat
  healthStatus : Nat
  motorRes : Nat
  startScanRes : Nat
  grabs : List GrabOutcome
  deriving DecidableEq, Repr

/-- Result of a `read_data_bin` run. `exitCode = none` means the provided
grab outcomes were exhausted with no failure: the `for(;;)` loop would
still be running (it has no normal termination), so no `stop` and no exit
have happened yet. -/
structure BinOut where
  trace : List Ev
  blocks : List Block
  exitCode : Option Int
  deriving DecidableEq, Repr

/-- Embedding of the capture loop of `read_data_bin/main.cpp` (lines
152–167): grab; on failure report the error, `stop()`, and exit `-1`
without writing; on success `ascendScanData` then append one
length-prefixed block and loop. -/
def binLoop : List GrabOutcome → List Ev × List Block × Option Int
  | [] => ([], [], none)
  | g :: rest =>
    if SL_IS_FAIL g.res then
      ([Ev.grabScanDataHq, Ev.reportAcqError g.res, Ev.stop], [], some (-1))
    else
      let r := binLoop rest
      (Ev.grabScanDataHq :: Ev.ascend :: r.1,
       ⟨g.nodes.length, ascendScanData g.nodes⟩ :: r.2.1,
       r.2.2)

/-- Embedding of `read_data_bin`'s `main` from `getDeviceInfo` on: info
query (fatal on failure), health check, `setMotorSpeed` with its result
discarded, open `data.bin`, `startScan(false, true)` with its result
discarded, then the unbounded capture loop. -/
def binMain (e : BinEnv) : BinOut :=
  if SL_IS_FAIL e.deviceInfoRes then
    ⟨[Ev.getDeviceInfo], [], some (-1)⟩
  else
    let hc := checkSLAMTECLIDARHealth e.healthRes e.healthStatus
    if !hc.2 then
      ⟨Ev.getDeviceInfo :: hc.1, [], some (-1)⟩
    else
      let r := binLoop e.grabs
      ⟨Ev.getDeviceInfo :: hc.1
         ++ [Ev.setMotorSpeed, Ev.openFile "data.bin", Ev.startScan false true]
         ++ r.1,
       r.2.1, r.2.2⟩

/-! ### Bootstrap helpers (`makeChannel`, `makeDriver`, identical in all apps) -/

/-- Oracle for `makeChannel`: whether `createSerialPortChannel` returned a
good `Result`, and whether the `unique_ptr` allocation is non-null. -/
structure ChannelEnv where
  createOk : Bool
  allocOk : Bool
  deriving DecidableEq, Repr

/-- Embedding of `makeChannel`: a failed `createSerialPortChannel` calls
`exit(-1)`; a null channel object calls `exit(-2)`; otherwise the channel
is returned. -/
def makeChannel (e : ChannelEnv) : Except Int Unit :=
  if !e.createOk then .error (-1)
  else if !e.allocOk then .error (-2)
  else .ok ()

/-- Oracle for `makeDriver`: whether `createLidarDriver` returned a good
`Result`, whether the `unique_ptr` allocation is non-null, and the
`sl_result` of `connect`. -/
structure DriverEnv where
  createOk : Bool
  allocOk : Bool
  connectRes : Nat
  deriving DecidableEq, Repr

/-- Embedding of `makeDriver`: a failed `createLidarDriver` calls
`exit(-1)`; a null driver object calls `exit(-2)`; a failed `connect`
calls `exit(-1)`; otherwise the driver is returned. -/
def makeDriver (e : DriverEnv) : Except Int Unit :=
  if !e.createOk then .error (-1)
  else if !e.allocOk then .error (-2)
  else if SL_IS_FAIL e.connectRes then .error (-1)
  else .ok ()

/-! ### Helper lemmas -/

/-- The angular reorder step preserves the number of records. -/
theorem ascendScanData_length (l : List Node) : (ascendScanData l).length = l.length :=
  List.length_insertionSort nodeLE l

/-- The angular reorder step permutes the records, mutating none. -/
theorem ascendScanData_perm (l : List Node) : (ascendScanData l).Perm l :=
  List.perm_insertionSort nodeLE l

/-- The angular reorder step yields raw angles in non-decreasing order. -/
theorem ascendScanData_sorted (l : List Node) :
    ((ascendScanData l).map Node.angle_z_q14).Pairwise (· ≤ ·) := by
  rw [List.pairwise_map]
  exact List.sorted_insertionSort nodeLE l

/-- Fixed-width little-endian serialization always has exactly `w` bytes. -/
theorem leBytes_length (w n : Nat) : (leBytes w n).length = w := by
  induction w generalizing n with
  | zero => rfl
  | succ w ih => simp [leBytes, ih]

/-- One serialized measurement record is exactly 8 bytes. -/
theorem nodeBytes_length (n : Node) : (nodeBytes n).length = 8 := by
  simp [nodeBytes, leBytes_length]

/-- Hypothesis bundle: a `sample_data` run passes every bootstrap stage and
reaches the sweep loop. -/
def SampleEnv.reachesSweep (e : SampleEnv) : Prop :=
  SL_IS_FAIL e.deviceInfoRes = false ∧ SL_IS_OK e.healthRes = true ∧
  e.healthStatus ≠ SL_LIDAR_STATUS_ERROR ∧ SL_IS_FAIL e.scanModesRes = false

instance (e : SampleEnv) : Decidable e.reachesSweep := by
  unfold SampleEnv.reachesSweep; infer_instance

/-- Hypothesis bundle: a `read_data_bin` run passes every bootstrap stage
and reaches the capture loop. -/
def BinEnv.reachesLoop (e : BinEnv) : Prop :=
  SL_IS_FAIL e.deviceInfoRes = false ∧ SL_IS_OK e.healthRes = true ∧
  e.healthStatus ≠ SL_LIDAR_STATUS_ERROR

instance (e : BinEnv) : Decidable e.reachesLoop := by
  unfold BinEnv.reachesLoop; infer_instance

/-- Unfolding of `sampleMain` on an environment that reaches the sweep. -/
theorem sampleMain_sweep (e : SampleEnv) (h : e.reachesSweep) :
    sampleMain e =
      ⟨[Ev.getDeviceInfo, Ev.getHealth, Ev.setMotorSpeed, Ev.getAllScanModes]
         ++ (e.modes.map (fun p => (runMode p.1 p.2).1)).flatten ++ [Ev.stop],
       e.modes.map (fun p => (runMode p.1 p.2).2), 0⟩ := by
  obtain ⟨h1, h2, h3, h4⟩ := h
  have hb : (e.healthStatus == SL_LIDAR_STATUS_ERROR) = false := by
    simpa using h3
  simp [sampleMain, checkSLAMTECLIDARHealth, h1, h2, h4, hb, Function.comp_def]

/-- Unfolding of `sampleMain` on a run whose health status is `ERROR`. -/
theorem sampleMain_unhealthy (e : SampleEnv) (hdev : SL_IS_FAIL e.deviceInfoRes = false)
    (h1 : SL_IS_OK e.healthRes = true) (h2 : e.healthStatus = SL_LIDAR_STATUS_ERROR) :
    sampleMain e = ⟨[Ev.getDeviceInfo, Ev.getHealth, Ev.reportUnhealthy], [], -1⟩ := by
  simp [sampleMain, checkSLAMTECLIDARHealth, hdev, h1, h2]

/-- Unfolding of `binMain` on an environment that reaches the capture loop. -/
theorem binMain_loop (e : BinEnv) (h : e.reachesLoop) :
    binMain e =
      ⟨[Ev.getDeviceInfo, Ev.getHealth, Ev.setMotorSpeed,
          Ev.openFile "data.bin", Ev.startScan false true]
         ++ (binLoop e.grabs).1,
       (binLoop e.grabs).2.1, (binLoop e.grabs).2.2⟩ := by
  obtain ⟨h1, h2, h3⟩ := h
  have hb : (e.healthStatus == SL_LIDAR_STATUS_ERROR) = false := by
    simpa using h3
  simp [binMain, checkSLAMTECLIDARHealth, h1, h2, hb]

/-- Unfolding of `binMain` on a run whose health status is `ERROR`. -/
theorem binMain_unhealthy (e : BinEnv) (hdev : SL_IS_FAIL e.deviceInfoRes = false)
    (h1 : SL_IS_OK e.healthRes = true) (h2 : e.healthStatus = SL_LIDAR_STATUS_ERROR) :
    binMain e = ⟨[Ev.getDeviceInfo, Ev.getHealth, Ev.reportUnhealthy], [], some (-1)⟩ := by
  simp [binMain, checkSLAMTECLIDARHealth, hdev, h1, h2]

/-- Capture loop with a failing outcome at the head: report, stop, exit. -/
theorem binLoop_fail_head (f : GrabOutcome) (rest : List GrabOutcome)
    (hf : SL_IS_FAIL f.res = true) :
    binLoop (f :: rest) =
      ([Ev.grabScanDataHq, Ev.reportAcqError f.res, Ev.stop], [], some (-1)) := by
  simp [binLoop, hf]

/-- Capture loop with a succeeding outcome at the head: one block, recurse. -/
theorem binLoop_ok_cons (g : GrabOutcome) (rest : List GrabOutcome)
    (hg : SL_IS_FAIL g.res = false) :
    binLoop (g :: rest) =
      (Ev.grabScanDataHq :: Ev.ascend :: (binLoop rest).1,
       Block.mk g.nodes.length (ascendScanData g.nodes) :: (binLoop rest).2.1,
       (binLoop rest).2.2) := by
  simp [binLoop, hg]

/-- Capture loop over a prefix of succeeding outcomes: one block per
outcome, in order, then whatever the remainder produces. -/
theorem binLoop_ok_front (succs rest : List GrabOutcome)
    (h : ∀ g ∈ succs, SL_IS_FAIL g.res = false) :
    binLoop (succs ++ rest) =
      ((succs.map fun _ => [Ev.grabScanDataHq, Ev.ascend]).flatten ++ (binLoop rest).1,
       (succs.map fun g => Block.mk g.nodes.length (ascendScanData g.nodes))
         ++ (binLoop rest).2.1,
       (binLoop rest).2.2) := by
  induction succs with
  | nil => simp
  | cons g gs ih =>
    rw [List.cons_append, binLoop_ok_cons g _ (h g (by simp)),
        ih (fun g' hg' => h g' (by simp [hg']))]
    simp

/-- Every block the capture loop emits is the angular reorder of one
succeeding grab outcome's records, prefixed by their count. -/
theorem binLoop_blocks_shape (gs : List GrabOutcome) (b : Block)
    (hb : b ∈ (binLoop gs).2.1) :
    ∃ g ∈ gs, SL_IS_FAIL g.res = false ∧
      b = Block.mk g.nodes.length (ascendScanData g.nodes) := by
  induction gs with
  | nil => simp [binLoop] at hb
  | cons g rest ih =>
    by_cases hg : SL_IS_FAIL g.res = true
    · rw [binLoop_fail_head g rest hg] at hb
      simp at hb
    · have hg' : SL_IS_FAIL g.res = false := by simpa using hg
      rw [binLoop_ok_cons g rest hg'] at hb
      rcases List.mem_cons.mp hb with h | h
      · exact ⟨g, by simp, hg', h⟩
      · obtain ⟨g', hg'', hfl, hb'⟩ := ih h
        exact ⟨g', by simp [hg''], hfl, hb'⟩

/-- Shape of one sweep iteration's trace: file open and header first, then
scan start, the negotiated-mode report, the single grab, and on success
the reorder call. -/
theorem runMode_trace (m : ScanMode) (me : ModeEnv) :
    (runMode m me).1 =
      [Ev.openFile (modeFileName m), Ev.writeHeader,
       Ev.startScanExpress false m.id,
       Ev.reportMode me.negotiated.id me.negotiated.scan_mode,
       Ev.grabScanDataHq]
        ++ (if SL_IS_OK me.grab.res then [Ev.ascend] else []) := by
  unfold runMode
  cases h : SL_IS_OK me.grab.res <;> simp [h]

/-- Shape of one sweep iteration's artifact. -/
theorem runMode_file (m : ScanMode) (me : ModeEnv) :
    (runMode m me).2 =
      ⟨modeFileName m, "theta,dist,q,flag",
       if SL_IS_OK me.grab.res then (ascendScanData me.grab.nodes).map rowOfNode
       else []⟩ := by
  unfold runMode
  cases h : SL_IS_OK me.grab.res <;> simp [h]

/-- One sweep iteration issues exactly one sample retrieval. -/
theorem runMode_grabCount (m : ScanMode) (me : ModeEnv) :
    grabCount (runMode m me).1 = 1 := by
  rw [runMode_trace]
  cases h : SL_IS_OK me.grab.res <;> simp [h, grabCount, List.countP_cons, List.countP_append]

/-- One sweep iteration emits no acquisition-error report. -/
theorem runMode_noAcqError (m : ScanMode) (me : ModeEnv) :
    (runMode m me).1.countP Ev.isAcqError = 0 := by
  rw [runMode_trace]
  cases h : SL_IS_OK me.grab.res <;>
    simp [h, List.countP_cons, List.countP_append, Ev.isAcqError]

/-- One sweep iteration issues exactly one `startScanExpress`, for the
requested mode id. -/
theorem runMode_startIds (m : ScanMode) (me : ModeEnv) :
    (runMode m me).1.filterMap Ev.startExpressId? = [m.id] := by
  rw [runMode_trace]
  cases h : SL_IS_OK me.grab.res <;> simp [h, Ev.startExpressId?]

/-- The sweep's concatenated per-mode traces issue `startScanExpress` for
exactly the enumerated mode ids, in enumerator-provided order. -/
theorem sweep_startIds (ms : List (ScanMode × ModeEnv)) :
    ((ms.map (fun p => (runMode p.1 p.2).1)).flatten).filterMap Ev.startExpressId? =
      ms.map (fun p => p.1.id) := by
  induction ms with
  | nil => rfl
  | cons p ps ih => simp [List.filterMap_append, runMode_startIds, ih]

/-- The sweep's concatenated per-mode traces issue exactly one sample
retrieval per enumerated mode. -/
theorem sweep_grabCount (ms : List (ScanMode × ModeEnv)) :
    grabCount ((ms.map (fun p => (runMode p.1 p.2).1)).flatten) = ms.length := by
  induction ms with
  | nil => rfl
  | cons p ps ih =>
    simp only [List.map_cons, List.flatten_cons]
    rw [grabCount, List.countP_append, ← grabCount, ← grabCount, runMode_grabCount, ih,
        List.length_cons]
    omega

/-- The sweep's concatenated per-mode traces contain no acquisition-error
report. -/
theorem sweep_noAcqError (ms : List (ScanMode × ModeEnv)) :
    ((ms.map (fun p => (runMode p.1 p.2).1)).flatten).countP Ev.isAcqError = 0 := by
  induction ms with
  | nil => rfl
  | cons p ps ih =>
    simp only [List.map_cons, List.flatten_cons]
    rw [List.countP_append, runMode_noAcqError, ih]

/-! ### Concrete fixtures for witnesses and counterexamples -/

/-- A record at raw angle `16384` (90°) and raw distance `40` (10 mm). -/
def nodeA : Node := ⟨16384, 40, 12, 1⟩

/-- A record at raw angle `0` with no sync flag. -/
def nodeB : Node := ⟨0, 100, 4, 0⟩

/-- The device's advertised `Standard` scan mode. -/
def modeStd : ScanMode := ⟨0, "Standard", 0x81, 508, 12⟩

/-- The device's advertised `Boost` scan mode. -/
def modeBoost : ScanMode := ⟨2, "Boost", 0x84, 127, 12⟩

/-- A succeeding grab outcome delivering two records out of angular order. -/
def okGrab : GrabOutcome := ⟨SL_RESULT_OK, [nodeA, nodeB]⟩

/-- A grab outcome failing with `SL_RESULT_OPERATION_TIMEOUT`. -/
def badGrab : GrabOutcome := ⟨SL_RESULT_OPERATION_TIMEOUT, []⟩

/-- A sweep environment passing bootstrap, whose first mode's retrieval
fails and whose second mode's retrieval succeeds. -/
def envSweepMixed : SampleEnv :=
  ⟨SL_RESULT_OK, SL_RESULT_OK, SL_LIDAR_STATUS_OK, SL_RESULT_OK, SL_RESULT_OK,
   [(modeStd, ⟨SL_RESULT_OK, modeBoost, badGrab⟩),
    (modeBoost, ⟨SL_RESULT_OK, modeBoost, okGrab⟩)]⟩

/-- A sweep environment reporting health status `ERROR`. -/
def envSweepUnhealthy : SampleEnv :=
  ⟨SL_RESULT_OK, SL_RESULT_OK, SL_LIDAR_STATUS_ERROR, SL_RESULT_OK, SL_RESULT_OK,
   [(modeStd, ⟨SL_RESULT_OK, modeStd, okGrab⟩)]⟩

/-- A sweep environment reporting health status `WARNING`. -/
def envSweepWarn : SampleEnv :=
  ⟨SL_RESULT_OK, SL_RESULT_OK, SL_LIDAR_STATUS_WARNING, SL_RESULT_OK, SL_RESULT_OK,
   [(modeStd, ⟨SL_RESULT_OK, modeStd, okGrab⟩)]⟩

/-- A continuous-capture environment: one successful batch, then a timeout. -/
def envBinMixed : BinEnv :=
  ⟨SL_RESULT_OK, SL_RESULT_OK, SL_LIDAR_STATUS_OK, SL_RESULT_OK, SL_RESULT_OK,
   [okGrab, badGrab]⟩

/-- A continuous-capture environment reporting health status `ERROR`. -/
def envBinUnhealthy : BinEnv :=
  ⟨SL_RESULT_OK, SL_RESULT_OK, SL_LIDAR_STATUS_ERROR, SL_RESULT_OK, SL_RESULT_OK,
   [okGrab]⟩

/-- A continuous-capture environment whose motor start fails. -/
def envBinMotorFail : BinEnv :=
  ⟨SL_RESULT_OK, SL_RESULT_OK, SL_LIDAR_STATUS_OK, SL_RESULT_OPERATION_FAIL,
   SL_RESULT_OK, [okGrab, badGrab]⟩

/-! ### Claim C2 — multi-mode sweep shape -/

/-- C2: on any run that reaches the sweep, the `startScanExpress` calls are
exactly the enumerated mode ids in enumerator order (each mode visited
once); the trace's last event is the unconditional `stop`; one artifact
per mode is produced, and a mode whose retrieval fails contributes a
row-less artifact while every other mode's artifact is unaffected (the
reorder of its own retrieval's records). -/
theorem c2_sweep_visits_all_modes (e : SampleEnv) (h : e.reachesSweep) :
    (sampleMain e).trace.filterMap Ev.startExpressId? = e.modes.map (fun p => p.1.id) ∧
    (sampleMain e).trace.getLast? = some Ev.stop ∧
    (sampleMain e).exitCode = 0 ∧
    (sampleMain e).files = e.modes.map (fun p => (runMode p.1 p.2).2) ∧
    (∀ p ∈ e.modes, SL_IS_OK p.2.grab.res = false → (runMode p.1 p.2).2.rows = []) ∧
    (∀ p ∈ e.modes, SL_IS_OK p.2.grab.res = true →
      (runMode p.1 p.2).2.rows = (ascendScanData p.2.grab.nodes).map rowOfNode) := by
  rw [sampleMain_sweep e h]
  refine ⟨?_, ?_, rfl, rfl, ?_, ?_⟩
  · simp only [List.filterMap_append]
    rw [sweep_startIds]
    simp [Ev.startExpressId?]
  · rw [List.append_assoc, List.getLast?_append]
    simp
  · intro p _ hfail
    rw [runMode_file]
    simp [hfail]
  · intro p _ hok
    rw [runMode_file]
    simp [hok]

/-- Witness for C2 at a concrete environment with a failing first mode. -/
theorem c2_sweep_visits_all_modes_witness :
    (sampleMain envSweepMixed).trace.filterMap Ev.startExpressId? = [0, 2] ∧
    (sampleMain envSweepMixed).trace.getLast? = some Ev.stop := by
  have h := c2_sweep_visits_all_modes envSweepMixed (by decide)
  refine ⟨?_, h.2.1⟩
  rw [h.1]
  decide

/-! ### Claim C3 — health gate -/

/-- C3: when the health query succeeds and reports `ERROR`, neither
program issues `setMotorSpeed`, `startScan`, `startScanExpress` or any
retrieval; both report the unhealthy condition and exit `-1`. A `WARNING`
status does not block: `setMotorSpeed` is still issued. -/
theorem c3_health_error_blocks_scan (e : SampleEnv) (b : BinEnv) (w : SampleEnv)
    (hdev : SL_IS_FAIL e.deviceInfoRes = false)
    (h1 : SL_IS_OK e.healthRes = true) (h2 : e.healthStatus = SL_LIDAR_STATUS_ERROR)
    (hdevb : SL_IS_FAIL b.deviceInfoRes = false)
    (hb1 : SL_IS_OK b.healthRes = true) (hb2 : b.healthStatus = SL_LIDAR_STATUS_ERROR)
    (hdevw : SL_IS_FAIL w.deviceInfoRes = false)
    (hw1 : SL_IS_OK w.healthRes = true) (hw2 : w.healthStatus = SL_LIDAR_STATUS_WARNING) :
    Ev.setMotorSpeed ∉ (sampleMain e).trace ∧
    (∀ nb id, Ev.startScanExpress nb id ∉ (sampleMain e).trace) ∧
    Ev.grabScanDataHq ∉ (sampleMain e).trace ∧
    Ev.reportUnhealthy ∈ (sampleMain e).trace ∧
    (sampleMain e).exitCode = -1 ∧
    Ev.setMotorSpeed ∉ (binMain b).trace ∧
    (∀ t nb, Ev.startScan t nb ∉ (binMain b).trace) ∧
    Ev.grabScanDataHq ∉ (binMain b).trace ∧
    Ev.reportUnhealthy ∈ (binMain b).trace ∧
    (binMain b).exitCode = some (-1) ∧
    Ev.setMotorSpeed ∈ (sampleMain w).trace := by
  rw [sampleMain_unhealthy e hdev h1 h2, binMain_unhealthy b hdevb hb1 hb2]
  refine ⟨by decide, ?_, by decide, by decide, rfl, by decide, ?_, by decide, by decide, rfl, ?_⟩
  · intro nb id
    simp
  · intro t nb
    simp
  · have hw3 : w.healthStatus ≠ SL_LIDAR_STATUS_ERROR := by
      rw [hw2]
      decide
    by_cases hm : SL_IS_FAIL w.scanModesRes = false
    · rw [sampleMain_sweep w ⟨hdevw, hw1, hw3, hm⟩]
      simp
    · have hm' : SL_IS_FAIL w.scanModesRes = true := by
        simpa using hm
      have hb : (w.healthStatus == SL_LIDAR_STATUS_ERROR) = false := by
        simpa using hw3
      simp [sampleMain, checkSLAMTECLIDARHealth, hdevw, hw1, hm', hb]

/-- Witness for C3 at concrete unhealthy and warning environments. -/
theorem c3_health_error_blocks_scan_witness :
    Ev.setMotorSpeed ∉ (sampleMain envSweepUnhealthy).trace ∧
    Ev.reportUnhealthy ∈ (binMain envBinUnhealthy).trace ∧
    Ev.setMotorSpeed ∈ (sampleMain envSweepWarn).trace :=
  let h := c3_health_error_blocks_scan envSweepUnhealthy envBinUnhealthy envSweepWarn
    (by decide) (by decide) (by decide) (by decide) (by decide) (by decide)
    (by decide) (by decide) (by decide)
  ⟨h.1, h.2.2.2.2.2.2.2.2.1, h.2.2.2.2.2.2.2.2.2.2⟩

/-! ### More helpers: sorted export, block byte lengths, loop event counts -/

/-- The exported theta column of a reordered batch is non-decreasing. -/
theorem rows_theta_sorted (l : List Node) :
    (((ascendScanData l).map rowOfNode).map Row.theta).Pairwise (· ≤ ·) := by
  rw [List.map_map, List.pairwise_map]
  refine (List.sorted_insertionSort nodeLE l).imp ?_
  intro a b hab
  have hc : (a.angle_z_q14 : ℚ) ≤ b.angle_z_q14 := by exact_mod_cast hab
  simp only [Function.comp_apply, rowOfNode]
  gcongr

/-- The raw record bytes in one block amount to 8 bytes per record. -/
theorem nodesBytes_flatten_length (l : List Node) :
    ((l.map nodeBytes).flatten).length = 8 * l.length := by
  induction l with
  | nil => rfl
  | cons n l ih =>
    simp only [List.map_cons, List.flatten_cons, List.length_append, nodeBytes_length, ih,
      List.length_cons]
    ring

/-- The successful prefix of the capture loop emits no acquisition-error
report. -/
theorem binSuccEvents_noAcqError (succs : List GrabOutcome) :
    ((succs.map fun _ => [Ev.grabScanDataHq, Ev.ascend]).flatten).countP Ev.isAcqError = 0 := by
  induction succs with
  | nil => rfl
  | cons g gs ih =>
    simp only [List.map_cons, List.flatten_cons]
    rw [List.countP_append, ih]
    decide

/-- The successful prefix of the capture loop issues one retrieval per
outcome. -/
theorem binSuccEvents_grabCount (succs : List GrabOutcome) :
    grabCount ((succs.map fun _ => [Ev.grabScanDataHq, Ev.ascend]).flatten) = succs.length := by
  induction succs with
  | nil => rfl
  | cons g gs ih =>
    simp only [List.map_cons, List.flatten_cons, List.length_cons]
    rw [grabCount, List.countP_append, ← grabCount, ← grabCount, ih]
    have h1 : grabCount [Ev.grabScanDataHq, Ev.ascend] = 1 := by decide
    rw [h1]
    omega

/-! ### Claim C4 — mandatory angular-ascending reorder before export -/

/-- C4: in both programs, every successfully retrieved batch passes
through `ascendScanData` before export — every per-mode CSV's theta
column is non-decreasing and is exactly the reorder of that mode's raw
records, and every binary block's raw angles are non-decreasing and are
exactly the reorder of the corresponding retrieval's records. -/
theorem c4_reorder_before_export (e : SampleEnv) (h : e.reachesSweep)
    (b : BinEnv) (hb : b.reachesLoop) :
    (∀ f ∈ (sampleMain e).files, (f.rows.map Row.theta).Pairwise (· ≤ ·)) ∧
    (∀ p ∈ e.modes, SL_IS_OK p.2.grab.res = true →
      (runMode p.1 p.2).2.rows = (ascendScanData p.2.grab.nodes).map rowOfNode) ∧
    (∀ blk ∈ (binMain b).blocks, (blk.nodes.map Node.angle_z_q14).Pairwise (· ≤ ·) ∧
      ∃ g ∈ b.grabs, blk.nodes = ascendScanData g.nodes) := by
  refine ⟨?_, ?_, ?_⟩
  · intro f hf
    rw [sampleMain_sweep e h] at hf
    simp only [List.mem_map] at hf
    obtain ⟨p, _, hpf⟩ := hf
    rw [← hpf, runMode_file]
    by_cases hok : SL_IS_OK p.2.grab.res = true
    · simp only [hok, if_true]
      exact rows_theta_sorted p.2.grab.nodes
    · simp only [hok]
      simp
  · intro p _ hok
    rw [runMode_file]
    simp [hok]
  · intro blk hblk
    rw [binMain_loop b hb] at hblk
    obtain ⟨g, hg, _, hshape⟩ := binLoop_blocks_shape b.grabs blk hblk
    subst hshape
    exact ⟨ascendScanData_sorted g.nodes, g, hg, rfl⟩

/-- Witness for C4 at a concrete successful mode of `envSweepMixed`. -/
theorem c4_reorder_before_export_witness :
    (((runMode modeBoost ⟨SL_RESULT_OK, modeBoost, okGrab⟩).2).rows.map Row.theta).Pairwise
      (· ≤ ·) := by
  refine (c4_reorder_before_export envSweepMixed (by decide) envBinMixed (by decide)).1 _ ?_
  rw [sampleMain_sweep envSweepMixed (by decide)]
  have hp : (modeBoost, (⟨SL_RESULT_OK, modeBoost, okGrab⟩ : ModeEnv)) ∈
      envSweepMixed.modes := by decide
  show (runMode modeBoost ⟨SL_RESULT_OK, modeBoost, okGrab⟩).2 ∈
    List.map (fun p => (runMode p.1 p.2).2) envSweepMixed.modes
  exact List.mem_map_of_mem _ hp

/-! ### Claim C5 — continuous-capture artifact: N length-prefixed blocks -/

/-- C5: on a run that reaches the capture loop and whose retrievals are N
successes followed by a failure, the artifact holds exactly N blocks, one
per successful batch in order; each block's count field equals its record
count, its byte image is an 8-byte unsigned count followed by exactly
8 bytes per record, and nothing of the failing (N+1)-th retrieval is
written; the run ends with exit code `-1`. -/
theorem c5_n_blocks_then_failure (e : BinEnv) (succs : List GrabOutcome) (f : GrabOutcome)
    (hreach : e.reachesLoop) (hgr : e.grabs = succs ++ [f])
    (hok : ∀ g ∈ succs, SL_IS_FAIL g.res = false) (hf : SL_IS_FAIL f.res = true) :
    (binMain e).blocks =
      succs.map (fun g => Block.mk g.nodes.length (ascendScanData g.nodes)) ∧
    (binMain e).blocks.length = succs.length ∧
    (∀ blk ∈ (binMain e).blocks, blk.count = blk.nodes.length) ∧
    artifactBytes (binMain e).blocks =
      ((binMain e).blocks.map (fun blk =>
        leBytes 8 blk.count ++ (blk.nodes.map nodeBytes).flatten)).flatten ∧
    (∀ blk ∈ (binMain e).blocks, (leBytes 8 blk.count).length = 8 ∧
      ((blk.nodes.map nodeBytes).flatten).length = 8 * blk.count) ∧
    (binMain e).exitCode = some (-1) := by
  have hblocks : (binMain e).blocks =
      succs.map (fun g => Block.mk g.nodes.length (ascendScanData g.nodes)) := by
    rw [binMain_loop e hreach]
    simp only
    rw [hgr, binLoop_ok_front succs [f] hok, binLoop_fail_head f [] hf]
    simp
  have hcnt : ∀ blk ∈ (binMain e).blocks, blk.count = blk.nodes.length := by
    intro blk hblk
    rw [hblocks] at hblk
    simp only [List.mem_map] at hblk
    obtain ⟨g, _, hgb⟩ := hblk
    rw [← hgb]
    exact (ascendScanData_length g.nodes).symm
  refine ⟨hblocks, by rw [hblocks, List.length_map], hcnt, ?_, ?_, ?_⟩
  · rfl
  · intro blk hblk
    exact ⟨leBytes_length 8 blk.count, by
      rw [nodesBytes_flatten_length, hcnt blk hblk]⟩
  · rw [binMain_loop e hreach]
    simp only
    rw [hgr, binLoop_ok_front succs [f] hok, binLoop_fail_head f [] hf]

/-- Witness for C5: one successful batch then a timeout yields exactly one
block. -/
theorem c5_n_blocks_then_failure_witness :
    (binMain envBinMixed).blocks.length = 1 ∧ (binMain envBinMixed).exitCode = some (-1) :=
  let h := c5_n_blocks_then_failure envBinMixed [okGrab] badGrab (by decide) (by decide)
    (by decide) (by decide)
  ⟨h.2.1, h.2.2.2.2.2⟩

/-! ### Claim C1 — handling of a failed sample retrieval -/

/-- C1 counterexample: in the multi-mode sweep the first mode's retrieval
fails with a timeout, yet the run emits no acquisition-error report,
proceeds to start the next mode's scan instead of treating the failure as
terminal, and exits 0 — refuting the claim that every failed retrieval
stops the motor and reports an `AcquisitionError`. -/
theorem c1_counterexample :
    SL_IS_FAIL ((envSweepMixed.modes.map (fun p => p.2.grab.res)).headI) = true ∧
    (sampleMain envSweepMixed).trace.countP Ev.isAcqError = 0 ∧
    Ev.startScanExpress false 2 ∈ (sampleMain envSweepMixed).trace ∧
    (sampleMain envSweepMixed).exitCode = 0 := by
  decide

/-- C1 (amended): in the continuous-capture program a failed retrieval is
terminal — exactly one acquisition-error report with the underlying
result code, a final `stop`, exit `-1`, one retrieval per successful
batch plus the failing one, and no outcome after the failure is ever
consumed (no retry). In the multi-mode sweep a failed retrieval is also
never retried (exactly one retrieval per mode), but no acquisition-error
report is emitted and the single `stop` comes only after the whole
sweep. -/
theorem c1_failure_terminal_no_retry (e : BinEnv) (succs rest : List GrabOutcome)
    (f : GrabOutcome) (hreach : e.reachesLoop) (hgr : e.grabs = succs ++ f :: rest)
    (hok : ∀ g ∈ succs, SL_IS_FAIL g.res = false) (hf : SL_IS_FAIL f.res = true)
    (e' : SampleEnv) (hreach' : e'.reachesSweep) :
    (binMain e).trace.countP Ev.isAcqError = 1 ∧
    Ev.reportAcqError f.res ∈ (binMain e).trace ∧
    (binMain e).trace.getLast? = some Ev.stop ∧
    (binMain e).exitCode = some (-1) ∧
    grabCount (binMain e).trace = succs.length + 1 ∧
    binMain e = binMain { e with grabs := succs ++ [f] } ∧
    grabCount (sampleMain e').trace = e'.modes.length ∧
    (sampleMain e').trace.countP Ev.isAcqError = 0 ∧
    (sampleMain e').trace.getLast? = some Ev.stop := by
  have hloop : binLoop e.grabs =
      ((succs.map fun _ => [Ev.grabScanDataHq, Ev.ascend]).flatten
         ++ [Ev.grabScanDataHq, Ev.reportAcqError f.res, Ev.stop],
       succs.map fun g => Block.mk g.nodes.length (ascendScanData g.nodes),
       some (-1)) := by
    rw [hgr, binLoop_ok_front succs (f :: rest) hok, binLoop_fail_head f rest hf]
    simp
  have htr : (binMain e).trace =
      [Ev.getDeviceInfo, Ev.getHealth, Ev.setMotorSpeed,
       Ev.openFile "data.bin", Ev.startScan false true]
        ++ ((succs.map fun _ => [Ev.grabScanDataHq, Ev.ascend]).flatten
             ++ [Ev.grabScanDataHq, Ev.reportAcqError f.res, Ev.stop]) := by
    rw [binMain_loop e hreach, hloop]
  refine ⟨?_, ?_, ?_, ?_, ?_, ?_, ?_, ?_, ?_⟩
  · rw [htr, List.countP_append, List.countP_append, binSuccEvents_noAcqError]
    simp [Ev.isAcqError]
  · rw [htr]
    simp
  · rw [htr, List.getLast?_append, List.getLast?_append]
    rfl
  · rw [binMain_loop e hreach, hloop]
  · rw [htr, grabCount, List.countP_append, List.countP_append, ← grabCount, ← grabCount,
        ← grabCount, binSuccEvents_grabCount]
    have h0 : grabCount [Ev.getDeviceInfo, Ev.getHealth, Ev.setMotorSpeed,
        Ev.openFile "data.bin", Ev.startScan false true] = 0 := by decide
    have h1 : grabCount [Ev.grabScanDataHq, Ev.reportAcqError f.res, Ev.stop] = 1 := by
      rw [grabCount]
      simp [List.countP_cons, Ev.isAcqError]
    rw [h0, h1]
    omega
  · have hreach2 : BinEnv.reachesLoop { e with grabs := succs ++ [f] } := hreach
    rw [binMain_loop e hreach, binMain_loop _ hreach2, hloop]
    have hloop2 : binLoop ({ e with grabs := succs ++ [f] } : BinEnv).grabs =
        ((succs.map fun _ => [Ev.grabScanDataHq, Ev.ascend]).flatten
           ++ [Ev.grabScanDataHq, Ev.reportAcqError f.res, Ev.stop],
         succs.map fun g => Block.mk g.nodes.length (ascendScanData g.nodes),
         some (-1)) := by
      show binLoop (succs ++ [f]) = _
      rw [binLoop_ok_front succs [f] hok, binLoop_fail_head f [] hf]
      simp
    rw [hloop2]
  · rw [sampleMain_sweep e' hreach']
    simp only
    rw [grabCount, List.countP_append, List.countP_append, ← grabCount, ← grabCount,
        ← grabCount, sweep_grabCount]
    have h0 : grabCount [Ev.getDeviceInfo, Ev.getHealth, Ev.setMotorSpeed,
        Ev.getAllScanModes] = 0 := by decide
    have h1 : grabCount [Ev.stop] = 0 := by decide
    rw [h0, h1]
    omega
  · rw [sampleMain_sweep e' hreach']
    simp only
    rw [List.countP_append, List.countP_append, sweep_noAcqError]
    decide
  · rw [sampleMain_sweep e' hreach']
    simp only
    rw [List.append_assoc, List.getLast?_append, List.getLast?_concat]
    rfl

/-- Witness for the amended C1 at concrete environments. -/
theorem c1_failure_terminal_no_retry_witness :
    (binMain envBinMixed).exitCode = some (-1) ∧
    (sampleMain envSweepMixed).trace.getLast? = some Ev.stop :=
  let h := c1_failure_terminal_no_retry envBinMixed [okGrab] [] badGrab (by decide)
    (by decide) (by decide) (by decide) envSweepMixed (by decide)
  ⟨h.2.2.2.1, h.2.2.2.2.2.2.2.2⟩

/-! ### Claim C6 — motor-start failure -/

/-- C6 counterexample: the motor-start call fails
(`SL_RESULT_OPERATION_FAIL`), yet the run still issues `startScan` and a
sample retrieval — refuting the claim that a failed motor start is
detected and terminates the run before any scan activity. -/
theorem c6_counterexample :
    SL_IS_FAIL envBinMotorFail.motorRes = true ∧
    Ev.setMotorSpeed ∈ (binMain envBinMotorFail).trace ∧
    Ev.startScan false true ∈ (binMain envBinMotorFail).trace ∧
    Ev.grabScanDataHq ∈ (binMain envBinMotorFail).trace := by
  decide

/-- C6 (amended): the result of `setMotorSpeed` is discarded by both
programs — the entire run (trace, artifacts, exit code) is independent of
the motor-start result, no motor-start error is ever reported, and a run
that passes the health gate proceeds to scan start regardless of whether
the motor start succeeded or failed. -/
theorem c6_motor_result_ignored (b : BinEnv) (r : Nat) (e : SampleEnv) (s : Nat)
    (hreach : b.reachesLoop) :
    binMain { b with motorRes := r } = binMain b ∧
    sampleMain { e with motorRes := s } = sampleMain e ∧
    Ev.startScan false true ∈ (binMain b).trace := by
  refine ⟨rfl, rfl, ?_⟩
  rw [binMain_loop b hreach]
  simp

/-- Witness for the amended C6 at a failing motor-start result. -/
theorem c6_motor_result_ignored_witness :
    binMain { envBinMixed with motorRes := SL_RESULT_OPERATION_FAIL } = binMain envBinMixed ∧
    Ev.startScan false true ∈ (binMain envBinMixed).trace :=
  let h := c6_motor_result_ignored envBinMixed SL_RESULT_OPERATION_FAIL envSweepMixed
    SL_RESULT_OPERATION_FAIL (by decide)
  ⟨h.1, h.2.2⟩

/-! ### Claim C7 — fatal-path exit codes -/

/-- C7 counterexample: a channel-creation failure and a connect failure (a
general operational bootstrap failure) both terminate with the same exit
code `-1` — refuting the claim that the three failure classes have
pairwise distinct codes. -/
theorem c7_counterexample :
    makeChannel ⟨false, true⟩ = Except.error (-1) ∧
    makeDriver ⟨true, true, SL_RESULT_OPERATION_FAIL⟩ = Except.error (-1) :=
  ⟨rfl, rfl⟩

/-- C7 (amended): allocation failures exit with `-2`, distinct from every
other fatal path; channel-creation failure and every general operational
bootstrap failure (driver creation, connect, and the info query inside
`main`) share the exit code `-1`; all fatal codes are negative. -/
theorem c7_exit_codes (c c2 : ChannelEnv) (d d1 d2 : DriverEnv) (e : SampleEnv)
    (hc : c.createOk = false)
    (hc21 : c2.createOk = true) (hc22 : c2.allocOk = false)
    (hd11 : d1.createOk = false)
    (hd21 : d2.createOk = true) (hd22 : d2.allocOk = false)
    (hd1 : d.createOk = true) (hd2 : d.allocOk = true)
    (hd3 : SL_IS_FAIL d.connectRes = true)
    (he : SL_IS_FAIL e.deviceInfoRes = true) :
    makeChannel c = Except.error (-1) ∧
    makeChannel c2 = Except.error (-2) ∧
    makeDriver d1 = Except.error (-1) ∧
    makeDriver d2 = Except.error (-2) ∧
    makeDriver d = Except.error (-1) ∧
    (sampleMain e).exitCode = -1 ∧
    ((-1 : Int) < 0 ∧ (-2 : Int) < 0 ∧ (-2 : Int) ≠ -1) := by
  refine ⟨?_, ?_, ?_, ?_, ?_, ?_, by decide⟩
  · simp [makeChannel, hc]
  · simp [makeChannel, hc21, hc22]
  · simp [makeDriver, hd11]
  · simp [makeDriver, hd21, hd22]
  · simp [makeDriver, hd1, hd2, hd3]
  · simp [sampleMain, he]

/-- Witness for the amended C7 at concrete failure environments. -/
theorem c7_exit_codes_witness :
    makeChannel ⟨true, false⟩ = Except.error (-2) ∧
    makeDriver ⟨false, true, SL_RESULT_OK⟩ = Except.error (-1) :=
  let h := c7_exit_codes ⟨false, true⟩ ⟨true, false⟩
    ⟨true, true, SL_RESULT_OPERATION_FAIL⟩ ⟨false, true, SL_RESULT_OK⟩
    ⟨true, false, SL_RESULT_OK⟩
    ⟨SL_RESULT_OPERATION_FAIL, SL_RESULT_OK, SL_LIDAR_STATUS_OK, SL_RESULT_OK,
     SL_RESULT_OK, []⟩
    rfl rfl rfl rfl rfl rfl rfl rfl (by decide) (by decide)
  ⟨h.2.1, h.2.2.1⟩

/-! ### Claim C8 — unit conversion at export time -/

/-- C8: every CSV row of a successful mode is produced by `rowOfNode` from
the reordered raw records, where `theta = angle_raw * 90 / 16384` degrees
and `dist = dist_raw / 4` millimeters; at the known raw values
`angle_raw = 16384` and `dist_raw = 40` the exported values are `90` and
`10`; the continuous-capture artifact instead stores the `Node` records
themselves — each block's records are a permutation of the retrieval's
raw records with all fixed-point fields unconverted, serialized
device-natively by `nodeBytes`. -/
theorem c8_unit_conversion (e : SampleEnv) (h : e.reachesSweep)
    (p : ScanMode × ModeEnv) (hp : p ∈ e.modes) (hok : SL_IS_OK p.2.grab.res = true)
    (b : BinEnv) (hb : b.reachesLoop) :
    (∃ f ∈ (sampleMain e).files,
      f.rows = (ascendScanData p.2.grab.nodes).map rowOfNode) ∧
    (∀ n : Node, (rowOfNode n).theta = (n.angle_z_q14 * 90 : ℚ) / 16384 ∧
      (rowOfNode n).dist = (n.dist_mm_q2 : ℚ) / 4) ∧
    (rowOfNode nodeA).theta = 90 ∧
    (rowOfNode nodeA).dist = 10 ∧
    (∀ blk ∈ (binMain b).blocks, ∃ g ∈ b.grabs,
      blk.nodes.Perm g.nodes ∧
      blockBytes blk = leBytes 8 blk.count ++ (blk.nodes.map nodeBytes).flatten) := by
  refine ⟨?_, fun n => ⟨rfl, rfl⟩, ?_, ?_, ?_⟩
  · refine ⟨(runMode p.1 p.2).2, ?_, ?_⟩
    · rw [sampleMain_sweep e h]
      exact List.mem_map_of_mem _ hp
    · rw [runMode_file]
      simp [hok]
  · show (nodeA.angle_z_q14 * 90 : ℚ) / 16384 = 90
    norm_num [nodeA]
  · show (nodeA.dist_mm_q2 : ℚ) / 4 = 10
    norm_num [nodeA]
  · intro blk hblk
    rw [binMain_loop b hb] at hblk
    obtain ⟨g, hg, _, hshape⟩ := binLoop_blocks_shape b.grabs blk hblk
    subst hshape
    exact ⟨g, hg, ascendScanData_perm g.nodes, rfl⟩

/-- Witness for C8 at the known raw values. -/
theorem c8_unit_conversion_witness :
    (rowOfNode nodeA).theta = 90 ∧ (rowOfNode nodeA).dist = 10 :=
  let h := c8_unit_conversion envSweepMixed (by decide)
    (modeBoost, ⟨SL_RESULT_OK, modeBoost, okGrab⟩) (by decide) (by decide)
    envBinMixed (by decide)
  ⟨h.2.2.1, h.2.2.2.1⟩

/-! ### Claim C9 — `startScanExpress` result never inspected -/

/-- Rewrite of a sweep environment's per-mode `startScanExpress` results. -/
def SampleEnv.withStartRes (e : SampleEnv) (f : Nat → Nat) : SampleEnv :=
  { e with modes := e.modes.map (fun p => (p.1, ⟨f p.2.startRes, p.2.negotiated, p.2.grab⟩)) }

/-- C9: the sweep never inspects the result of `startScanExpress` — the
entire run is invariant under any rewrite of the per-mode scan-start
results; each mode's trace unconditionally reports the negotiated mode
and proceeds to the retrieval right after the scan start; one retrieval
is issued per enumerated mode. -/
theorem c9_startScanExpress_result_ignored (e : SampleEnv) (f : Nat → Nat)
    (h : e.reachesSweep) :
    sampleMain (e.withStartRes f) = sampleMain e ∧
    (∀ p ∈ e.modes,
      (runMode p.1 p.2).1 =
        [Ev.openFile (modeFileName p.1), Ev.writeHeader,
         Ev.startScanExpress false p.1.id,
         Ev.reportMode p.2.negotiated.id p.2.negotiated.scan_mode,
         Ev.grabScanDataHq]
          ++ (if SL_IS_OK p.2.grab.res then [Ev.ascend] else [])) ∧
    grabCount (sampleMain e).trace = e.modes.length := by
  refine ⟨?_, fun p _ => runMode_trace p.1 p.2, ?_⟩
  · rw [sampleMain_sweep e h, sampleMain_sweep (e.withStartRes f) h]
    simp only [SampleEnv.withStartRes, List.map_map]
    rfl
  · rw [sampleMain_sweep e h]
    simp only
    rw [grabCount, List.countP_append, List.countP_append, ← grabCount, ← grabCount,
        ← grabCount, sweep_grabCount]
    have h0 : grabCount [Ev.getDeviceInfo, Ev.getHealth, Ev.setMotorSpeed,
        Ev.getAllScanModes] = 0 := by decide
    have h1 : grabCount [Ev.stop] = 0 := by decide
    rw [h0, h1]
    omega

/-- Witness for C9: rewriting every scan-start result to a failing code
changes nothing. -/
theorem c9_startScanExpress_result_ignored_witness :
    sampleMain (envSweepMixed.withStartRes (fun _ => SL_RESULT_OPERATION_FAIL)) =
      sampleMain envSweepMixed :=
  (c9_startScanExpress_result_ignored envSweepMixed (fun _ => SL_RESULT_OPERATION_FAIL)
    (by decide)).1

/-! ### Claim C10 — per-mode CSV created with header before scan start -/

/-- C10: for every enumerated mode — including one whose retrieval fails —
the per-mode CSV named from `(modeId, modeName)` is among the produced
artifacts with header `theta,dist,q,flag`; its open and header write
precede the `startScanExpress` event in the mode's trace; and a mode
whose retrieval fails yields a header-only file with zero data rows. -/
theorem c10_csv_header_before_scan (e : SampleEnv) (h : e.reachesSweep)
    (p : ScanMode × ModeEnv) (hp : p ∈ e.modes) :
    (runMode p.1 p.2).2 ∈ (sampleMain e).files ∧
    (runMode p.1 p.2).2.name = toString p.1.id ++ "_" ++ p.1.scan_mode ++ "_data.csv" ∧
    (runMode p.1 p.2).2.header = "theta,dist,q,flag" ∧
    (runMode p.1 p.2).1.take 3 =
      [Ev.openFile (modeFileName p.1), Ev.writeHeader,
       Ev.startScanExpress false p.1.id] ∧
    (SL_IS_OK p.2.grab.res = false → (runMode p.1 p.2).2.rows = []) := by
  refine ⟨?_, ?_, ?_, ?_, ?_⟩
  · rw [sampleMain_sweep e h]
    exact List.mem_map_of_mem _ hp
  · rw [runMode_file]
    rfl
  · rw [runMode_file]
  · rw [runMode_trace]
    cases hok : SL_IS_OK p.2.grab.res <;> simp [hok]
  · intro hfail
    rw [runMode_file]
    simp [hfail]

/-- Witness for C10 at the concrete failing mode of `envSweepMixed`. -/
theorem c10_csv_header_before_scan_witness :
    (runMode modeStd ⟨SL_RESULT_OK, modeBoost, badGrab⟩).2.rows = [] ∧
    (runMode modeStd ⟨SL_RESULT_OK, modeBoost, badGrab⟩).2.header = "theta,dist,q,flag" :=
  let h := c10_csv_header_before_scan envSweepMixed (by decide)
    (modeStd, ⟨SL_RESULT_OK, modeBoost, badGrab⟩) (by decide)
  ⟨h.2.2.2.2 (by decide), h.2.2.1⟩
